import Mathlib

/-!
Verification of the parking reservation engine of the ParkingAPP repository.

The authoritative implementation is the SQL layer (`public.create_reservation`,
`public.cancel_reservation`, `public.expire_reservations`,
`public.slot_has_active_reservation` and the `on_device_event` trigger).  The
database tables `slots`, `devices`, `reservations` and `device_events` are
embedded as Lean structures over lists; timestamps are integers measured in
minutes, matching the granularity the SQL uses (`now() + (p_minutes ||
' minutes')::interval`).
-/

namespace ParkingApp

/-- The `reservation_status` enum: `('pending', 'active', 'cancelled', 'expired')`. -/
inductive ReservationStatus where
  | pending
  | active
  | cancelled
  | expired
deriving DecidableEq, Repr

/-- The `slot_status` enum: `('available', 'reserved', 'occupied', 'offline')`. -/
inductive SlotStatus where
  | available
  | reserved
  | occupied
  | offline
deriving DecidableEq, Repr

/-- The `device_status` enum: `('online', 'offline', 'maintenance')`. -/
inductive DeviceStatus where
  | online
  | offline
  | maintenance
deriving DecidableEq, Repr

/-- The `device_events.event_type` check: `('heartbeat','occupancy','status')`. -/
inductive EventType where
  | heartbeat
  | occupancy
  | statusEvent
deriving DecidableEq, Repr

/-- A row of `public.reservations`. -/
structure Reservation where
  id : Nat
  slot_id : Nat
  user_id : Nat
  rstatus : ReservationStatus
  reserved_at : Int
  expires_at : Int
  cancelled_at : Option Int
  end_at : Option Int
  created_at : Int
deriving DecidableEq, Repr

/-- A row of `public.slots` (fields the engine touches). -/
structure Slot where
  id : Nat
  device_id : Option Nat
  sstatus : SlotStatus
  last_status_at : Option Int
deriving DecidableEq, Repr

/-- A row of `public.devices` (fields the engine touches). -/
structure Device where
  id : Nat
  dstatus : DeviceStatus
  last_seen : Option Int
deriving DecidableEq, Repr

/-- A row of `public.device_events`. -/
structure DeviceEvent where
  device_id : Nat
  event_type : EventType
  is_occupied : Option Bool
  created_at : Int
deriving DecidableEq, Repr

/-- The database state: the four tables plus the id sequence for reservations. -/
structure DBState where
  slots : List Slot
  reservations : List Reservation
  devices : List Device
  events : List DeviceEvent
  nextId : Nat
deriving DecidableEq, Repr

/-- Test for `status in ('pending','active')` — the open statuses. -/
def openStatus (s : ReservationStatus) : Bool :=
  s == .pending || s == .active

/-- Function `public.slot_has_active_reservation(p_slot_id)`:
`exists(select 1 from reservations r where r.slot_id = p_slot_id and
r.status in ('pending','active'))`. -/
def slot_has_active_reservation (rs : List Reservation) (p_slot_id : Nat) : Bool :=
  rs.any (fun r => r.slot_id == p_slot_id && openStatus r.rstatus)

/-- The inline check in `create_reservation`:
`exists (select 1 from reservations where user_id = v_user_id and
status in ('pending','active'))`. -/
def user_has_active_reservation (rs : List Reservation) (v_user_id : Nat) : Bool :=
  rs.any (fun r => r.user_id == v_user_id && openStatus r.rstatus)

deriving instance DecidableEq for Except

/-- The `raise exception` messages of the reservation RPCs, plus the
foreign-key violation the insert raises when the slot row is absent. -/
inductive ResError where
  | mustBeAuthenticated
  | userAlreadyHasActiveReservation
  | slotAlreadyReserved
  | reservationNotFound
  | notAllowedToCancel
  | slotForeignKeyViolation
deriving DecidableEq, Repr

/-- The default of the `status` column of `public.reservations`
(`reservation_status not null default 'active'`). -/
def reservation_status_default : ReservationStatus := .active

/-- The row inserted by `create_reservation`:
`insert into reservations(slot_id, user_id, status, expires_at) values
(p_slot_id, v_user_id, 'active', now() + (p_minutes || ' minutes')::interval)`;
`reserved_at` and `created_at` take their `now()` defaults, `id` the sequence. -/
def inserted_reservation (st : DBState) (v_user_id p_slot_id : Nat)
    (p_minutes now : Int) : Reservation :=
  { id := st.nextId
    slot_id := p_slot_id
    user_id := v_user_id
    rstatus := .active
    reserved_at := now
    expires_at := now + p_minutes
    cancelled_at := none
    end_at := none
    created_at := now }

/-- Function `public.create_reservation(p_slot_id, p_minutes)` run as user `uid`
(`auth.uid()`, `none` for anonymous) at time `now`.  On any exception the
transaction rolls back, so an error carries no state. -/
def create_reservation (st : DBState) (uid : Option Nat) (p_slot_id : Nat)
    (p_minutes now : Int) : Except ResError (Reservation × DBState) :=
  match uid with
  | none => .error .mustBeAuthenticated
  | some v_user_id =>
    if user_has_active_reservation st.reservations v_user_id then
      .error .userAlreadyHasActiveReservation
    else if slot_has_active_reservation st.reservations p_slot_id then
      .error .slotAlreadyReserved
    else if !(st.slots.any (fun s => s.id == p_slot_id)) then
      -- `reservations.slot_id references slots(id)`: the insert fails when
      -- no such slot row exists.
      .error .slotForeignKeyViolation
    else
      let v_res := inserted_reservation st v_user_id p_slot_id p_minutes now
      -- `update slots set status = 'reserved', last_status_at = now()
      --  where id = p_slot_id`
      let slots' := st.slots.map (fun s =>
        if s.id == p_slot_id then
          { s with sstatus := .reserved, last_status_at := some now }
        else s)
      .ok (v_res,
        { st with reservations := st.reservations ++ [v_res]
                  slots := slots'
                  nextId := st.nextId + 1 })

/-- Call of `create_reservation` with `p_minutes` omitted: the declared default is
`p_minutes int default 15`. -/
def create_reservation_default (st : DBState) (uid : Option Nat)
    (p_slot_id : Nat) (now : Int) : Except ResError (Reservation × DBState) :=
  create_reservation st uid p_slot_id 15 now

/-- The `set` clause of the cancelling update:
`set status = 'cancelled', cancelled_at = now() where id = p_reservation_id`. -/
def cancel_update (p_reservation_id : Nat) (now : Int) (r : Reservation) :
    Reservation :=
  if r.id == p_reservation_id then
    { r with rstatus := .cancelled, cancelled_at := some now }
  else r

/-- Function `public.cancel_reservation(p_reservation_id)` run as user `uid` with
`public.is_admin()` evaluating to `v_is_admin`, at time `now`. -/
def cancel_reservation (st : DBState) (uid : Option Nat) (v_is_admin : Bool)
    (p_reservation_id : Nat) (now : Int) :
    Except ResError (Reservation × DBState) :=
  match uid with
  | none => .error .mustBeAuthenticated
  | some v_user_id =>
    match st.reservations.find? (fun r => r.id == p_reservation_id) with
    | none => .error .reservationNotFound
    | some v_res =>
      if v_res.user_id != v_user_id && !v_is_admin then
        .error .notAllowedToCancel
      else if !(openStatus v_res.rstatus) then
        -- `return v_res; -- nothing to do`
        .ok (v_res, st)
      else
        -- `update reservations set status = 'cancelled', cancelled_at = now()
        --  where id = p_reservation_id returning * into v_res`
        let rs' := st.reservations.map (cancel_update p_reservation_id now)
        let v_res' := { v_res with
          rstatus := ReservationStatus.cancelled, cancelled_at := some now }
        -- `if not slot_has_active_reservation(v_res.slot_id) then
        --    update slots set status = 'available', last_status_at = now()`
        if !(slot_has_active_reservation rs' v_res.slot_id) then
          .ok (v_res',
            { st with reservations := rs'
                      slots := st.slots.map (fun s =>
                        if s.id == v_res.slot_id then
                          { s with sstatus := .available
                                   last_status_at := some now }
                        else s) })
        else
          .ok (v_res', { st with reservations := rs' })

/-- The `where` clause of `expire_reservations`:
`r.status in ('pending','active') and now() >= r.expires_at`. -/
def expireMatch (now : Int) (r : Reservation) : Bool :=
  openStatus r.rstatus && decide (r.expires_at ≤ now)

/-- The `set` clause of `expire_reservations`:
`set status = 'expired', end_at = now()`. -/
def expireRow (now : Int) (r : Reservation) : Reservation :=
  { r with rstatus := .expired, end_at := some now }

/-- Effect of the expiry update on an arbitrary row: expired when the
`where` clause matches, untouched otherwise. -/
def expire_update (now : Int) (r : Reservation) : Reservation :=
  if expireMatch now r then expireRow now r else r

/-- One pass of the `update ... returning *` of `expire_reservations`:
first component the returned (updated) rows, second the table afterwards. -/
def expireList (now : Int) : List Reservation → List Reservation × List Reservation
  | [] => ([], [])
  | r :: rs =>
    let p := expireList now rs
    if expireMatch now r then (expireRow now r :: p.1, expireRow now r :: p.2)
    else (p.1, r :: p.2)

/-- Function `public.expire_reservations()` at time `now`: returns the newly-expired
rows and the new state. -/
def expire_reservations (st : DBState) (now : Int) :
    List Reservation × DBState :=
  let p := expireList now st.reservations
  (p.1, { st with reservations := p.2 })

/-- The `on_device_event` trigger body, fired after inserting `ev`. -/
def on_device_event (st : DBState) (ev : DeviceEvent) : DBState :=
  -- `update devices set last_seen = now(), status = 'online'
  --  where id = new.device_id`
  let devices' := st.devices.map (fun d =>
    if d.id == ev.device_id then
      { d with last_seen := some ev.created_at, dstatus := .online }
    else d)
  let st1 := { st with devices := devices' }
  -- `select s.id into v_slot_id from slots s where s.device_id = new.device_id`
  match st.slots.find? (fun s => s.device_id == some ev.device_id) with
  | none => st1
  | some s =>
    if ev.event_type == .occupancy then
      match ev.is_occupied with
      | some true =>
        { st1 with slots := st1.slots.map (fun t =>
            if t.id == s.id then
              { t with sstatus := .occupied, last_status_at := some ev.created_at }
            else t) }
      | some false =>
        let v_has_active := slot_has_active_reservation st.reservations s.id
        { st1 with slots := st1.slots.map (fun t =>
            if t.id == s.id then
              { t with sstatus := if v_has_active then .reserved else .available
                       last_status_at := some ev.created_at }
            else t) }
      | none => st1
    else st1

/-- Telemetry ingestion: append the event row (append-only audit trail) and
fire the `device_events_after_insert` trigger. -/
def ingest (st : DBState) (devId : Nat) (ev : EventType) (occ : Option Bool)
    (now : Int) : DBState :=
  let e : DeviceEvent :=
    { device_id := devId, event_type := ev, is_occupied := occ, created_at := now }
  on_device_event { st with events := st.events ++ [e] } e

/-- The operations that mutate reservation/slot state. -/
inductive Op where
  | create (uid : Option Nat) (slotId : Nat) (minutes now : Int)
  | cancel (uid : Option Nat) (isAdmin : Bool) (resId : Nat) (now : Int)
  | expire (now : Int)
  | ingestEvent (devId : Nat) (ev : EventType) (occ : Option Bool) (now : Int)
deriving DecidableEq, Repr

/-- Apply one operation; a failing operation rolls back, leaving the state
unchanged. -/
def applyOp (st : DBState) : Op → DBState
  | .create uid slotId m now =>
    match create_reservation st uid slotId m now with
    | .ok p => p.2
    | .error _ => st
  | .cancel uid isAdmin resId now =>
    match cancel_reservation st uid isAdmin resId now with
    | .ok p => p.2
    | .error _ => st
  | .expire now => (expire_reservations st now).2
  | .ingestEvent devId ev occ now => ingest st devId ev occ now

/-- Run a sequence of operations. -/
def run (st : DBState) (ops : List Op) : DBState :=
  ops.foldl applyOp st

/-- An initial state: admin-provisioned slots and devices, no reservations. -/
def initState (slots : List Slot) (devices : List Device) : DBState :=
  { slots := slots, reservations := [], devices := devices, events := []
    nextId := 0 }

/-- Number of open reservations referencing a slot. -/
def openCountSlot (rs : List Reservation) (sid : Nat) : Nat :=
  (rs.filter (fun r => r.slot_id == sid && openStatus r.rstatus)).length

/-- The per-slot uniqueness invariant behind `uniq_active_reservation_per_slot`. -/
def SlotInv (st : DBState) : Prop :=
  ∀ sid, openCountSlot st.reservations sid ≤ 1

/-- Status of the slot row with a given id. -/
def slotStatus (st : DBState) (sid : Nat) : Option SlotStatus :=
  (st.slots.find? (fun s => s.id == sid)).map (fun s => s.sstatus)

/-- Is there an open reservation for slot `sid` other than reservation `resId`? -/
def otherOpenReservation (rs : List Reservation) (resId sid : Nat) : Bool :=
  rs.any (fun q => !(q.id == resId) && (q.slot_id == sid && openStatus q.rstatus))

/-- Does the operation use a positive duration (vacuously true for non-create)? -/
def durPos : Op → Bool
  | .create _ _ m _ => decide (0 < m)
  | _ => true

/-! ### Helper lemmas -/

lemma length_filter_map_le {α : Type} (p : α → Bool) (f : α → α) (l : List α)
    (h : ∀ a ∈ l, p (f a) = true → p a = true) :
    ((l.map f).filter p).length ≤ (l.filter p).length := by
  induction l with
  | nil => simp
  | cons a t ih =>
    have ht : ∀ b ∈ t, p (f b) = true → p b = true :=
      fun b hb => h b (List.mem_cons_of_mem _ hb)
    by_cases hfa : p (f a) = true
    · have hpa : p a = true := h a (List.mem_cons_self _ _) hfa
      simp only [List.map_cons, List.filter_cons, hfa, hpa, if_true,
        List.length_cons]
      exact Nat.succ_le_succ (ih ht)
    · simp only [List.map_cons, List.filter_cons, hfa, if_false,
        Bool.false_eq_true]
      split
      · exact Nat.le_trans (ih ht) (Nat.le_succ _)
      · exact ih ht

lemma forall_mem_map_of {α : Type} {P : α → Prop} {f : α → α} {l : List α}
    (h : ∀ a ∈ l, P a) (hf : ∀ a, P a → P (f a)) : ∀ b ∈ l.map f, P b := by
  intro b hb
  rcases List.mem_map.mp hb with ⟨a, ha, rfl⟩
  exact hf a (h a ha)

/-- The one-pass update of `expire_reservations`, characterised as a
filter/map over the table. -/
lemma expireList_eq (now : Int) (l : List Reservation) :
    expireList now l
      = ((l.filter (expireMatch now)).map (expireRow now),
         l.map (expire_update now)) := by
  induction l with
  | nil => rfl
  | cons r t ih =>
    by_cases h : expireMatch now r = true <;>
      simp [expireList, ih, List.filter_cons, expire_update, h]

/-- Updating rows in place does not move the row that a key-search finds. -/
lemma find_map_update {α : Type} (l : List α) (key : α → Nat) (sid : Nat)
    (g : α → α) (hg : ∀ s, key (g s) = key s) :
    (l.map (fun t => if key t == sid then g t else t)).find?
        (fun t => key t == sid)
      = (l.find? (fun t => key t == sid)).map g := by
  induction l with
  | nil => simp
  | cons a t ih =>
    by_cases ha : (key a == sid) = true
    · have h1 : (key (g a) == sid) = true := by rw [hg]; exact ha
      have hfa : (if key a == sid then g a else a) = g a := if_pos ha
      rw [List.map_cons, hfa,
        @List.find?_cons_of_pos _ (fun t => key t == sid) (g a) _ h1,
        @List.find?_cons_of_pos _ (fun t => key t == sid) a _ ha,
        Option.map_some']
    · have hfa : (if key a == sid then g a else a) = a := if_neg ha
      rw [List.map_cons, hfa,
        @List.find?_cons_of_neg _ (fun t => key t == sid) a _ ha,
        @List.find?_cons_of_neg _ (fun t => key t == sid) a _ ha]
      exact ih

/-- Full characterisation of a successful `create_reservation` call. -/
lemma create_reservation_ok_iff {st : DBState} {u p_slot_id : Nat}
    {p_minutes now : Int} {r : Reservation} {st' : DBState} :
    create_reservation st (some u) p_slot_id p_minutes now = .ok (r, st') ↔
      user_has_active_reservation st.reservations u = false ∧
      slot_has_active_reservation st.reservations p_slot_id = false ∧
      st.slots.any (fun s => s.id == p_slot_id) = true ∧
      r = inserted_reservation st u p_slot_id p_minutes now ∧
      st' = { st with
        reservations :=
          st.reservations ++ [inserted_reservation st u p_slot_id p_minutes now]
        slots := st.slots.map (fun s =>
          if s.id == p_slot_id then
            { s with sstatus := .reserved, last_status_at := some now }
          else s)
        nextId := st.nextId + 1 } := by
  simp only [create_reservation]
  split_ifs with h1 h2 h3
  · simp [h1]
  · simp [h1, h2]
  · rw [Bool.not_eq_true'] at h3
    simp [h3]
  · rw [Bool.not_eq_true] at h1 h2
    rw [Bool.not_eq_true, Bool.not_eq_false'] at h3
    simp only [h1, h2, h3, true_and, Except.ok.injEq, Prod.mk.injEq]
    constructor
    · rintro ⟨hr, hst⟩; exact ⟨hr.symm, hst.symm⟩
    · rintro ⟨hr, hst⟩; exact ⟨hr.symm, hst.symm⟩

/-- Running `cancel_reservation` when no row has the requested id. -/
lemma cancel_eq_of_none {st : DBState} {u : Nat} {a : Bool} {resId : Nat}
    {now : Int} (hf : st.reservations.find? (fun q => q.id == resId) = none) :
    cancel_reservation st (some u) a resId now = .error .reservationNotFound := by
  simp only [cancel_reservation, hf]

/-- Running `cancel_reservation` when the caller is neither the owner nor an admin. -/
lemma cancel_eq_of_forbidden {st : DBState} {u : Nat} {a : Bool} {resId : Nat}
    {now : Int} {v : Reservation}
    (hf : st.reservations.find? (fun q => q.id == resId) = some v)
    (hperm : (v.user_id != u && !a) = true) :
    cancel_reservation st (some u) a resId now = .error .notAllowedToCancel := by
  simp only [cancel_reservation, hf, hperm, if_true]

/-- Running `cancel_reservation` on a reservation in a terminal status: a no-op. -/
lemma cancel_eq_of_terminal {st : DBState} {u : Nat} {a : Bool} {resId : Nat}
    {now : Int} {v : Reservation}
    (hf : st.reservations.find? (fun q => q.id == resId) = some v)
    (hperm : (v.user_id != u && !a) = false)
    (hopen : openStatus v.rstatus = false) :
    cancel_reservation st (some u) a resId now = .ok (v, st) := by
  simp only [cancel_reservation, hf, hperm, hopen, Bool.false_eq_true,
    if_false, Bool.not_false, if_true]

/-- Running `cancel_reservation` on an open reservation: the cancelling update runs,
then the slot is re-evaluated. -/
lemma cancel_eq_of_open {st : DBState} {u : Nat} {a : Bool} {resId : Nat}
    {now : Int} {v : Reservation}
    (hf : st.reservations.find? (fun q => q.id == resId) = some v)
    (hperm : (v.user_id != u && !a) = false)
    (hopen : openStatus v.rstatus = true) :
    cancel_reservation st (some u) a resId now
      = .ok ({ v with rstatus := .cancelled, cancelled_at := some now },
          if slot_has_active_reservation
              (st.reservations.map (cancel_update resId now)) v.slot_id then
            { st with reservations := st.reservations.map (cancel_update resId now) }
          else
            { st with
              reservations := st.reservations.map (cancel_update resId now)
              slots := st.slots.map (fun s =>
                if s.id == v.slot_id then
                  { s with sstatus := .available, last_status_at := some now }
                else s) }) := by
  by_cases hb : slot_has_active_reservation
      (st.reservations.map (cancel_update resId now)) v.slot_id = true
  · simp [cancel_reservation, hf, hperm, hopen, hb]
  · rw [Bool.not_eq_true] at hb
    simp [cancel_reservation, hf, hperm, hopen, hb]

/-- After the cancelling update, the slot re-check of `cancel_reservation`
sees exactly the open reservations of other rows. -/
lemma slot_active_after_cancel (rs : List Reservation) (resId sid : Nat)
    (now : Int) :
    slot_has_active_reservation (rs.map (cancel_update resId now)) sid
      = otherOpenReservation rs resId sid := by
  unfold slot_has_active_reservation otherOpenReservation
  rw [List.any_map]
  congr 1
  funext q
  by_cases hq : (q.id == resId) = true <;>
    simp [Function.comp, cancel_update, hq, openStatus]

/-- The function `expire_reservations`, characterised as a filter/map over the table. -/
lemma expire_reservations_eq (st : DBState) (now : Int) :
    expire_reservations st now
      = ((st.reservations.filter (expireMatch now)).map (expireRow now),
         { st with reservations := st.reservations.map (expire_update now) }) := by
  unfold expire_reservations
  rw [expireList_eq]

/-- No row survives the first expiry pass still matching its `where` clause. -/
lemma expire_second_pass_nil (now : Int) (l : List Reservation) :
    (l.map (expire_update now)).filter (expireMatch now) = [] := by
  rw [List.filter_eq_nil_iff]
  intro a ha
  rcases List.mem_map.mp ha with ⟨r, hr, rfl⟩
  by_cases h : expireMatch now r = true
  · rw [expire_update, if_pos h]
    simp [expireMatch, expireRow, openStatus]
  · simp [expire_update, h]

/-- Telemetry ingestion never touches the reservations table. -/
lemma ingest_reservations (st : DBState) (devId : Nat) (ev : EventType)
    (occ : Option Bool) (now : Int) :
    (ingest st devId ev occ now).reservations = st.reservations := by
  simp only [ingest, on_device_event]
  split
  · rfl
  · split
    · split <;> rfl
    · rfl

lemma openCountSlot_append_single (rs : List Reservation) (r : Reservation)
    (sid : Nat) :
    openCountSlot (rs ++ [r]) sid
      = openCountSlot rs sid
        + (if r.slot_id == sid && openStatus r.rstatus then 1 else 0) := by
  unfold openCountSlot
  rw [List.filter_append]
  by_cases h : (r.slot_id == sid && openStatus r.rstatus) = true <;> simp [h]

lemma openCountSlot_zero (rs : List Reservation) (sid : Nat)
    (h : slot_has_active_reservation rs sid = false) :
    openCountSlot rs sid = 0 := by
  unfold openCountSlot
  rw [List.length_eq_zero, List.filter_eq_nil_iff]
  exact List.any_eq_false.mp h

lemma openCountSlot_map_le (rs : List Reservation) (f : Reservation → Reservation)
    (sid : Nat)
    (hf : ∀ r ∈ rs, ((f r).slot_id == sid && openStatus (f r).rstatus) = true →
      (r.slot_id == sid && openStatus r.rstatus) = true) :
    openCountSlot (rs.map f) sid ≤ openCountSlot rs sid :=
  length_filter_map_le _ f rs hf

/-- The reservations table after one operation: unchanged, extended by the
inserted row (create), or rewritten by the cancelling/expiring update. -/
lemma applyOp_reservations_cases (st : DBState) (op : Op) :
    (applyOp st op).reservations = st.reservations ∨
    (∃ u slotId m now,
        op = .create (some u) slotId m now ∧
        slot_has_active_reservation st.reservations slotId = false ∧
        (applyOp st op).reservations
          = st.reservations ++ [inserted_reservation st u slotId m now]) ∨
    (∃ resId now,
        (applyOp st op).reservations
          = st.reservations.map (cancel_update resId now)) ∨
    (∃ now,
        (applyOp st op).reservations = st.reservations.map (expire_update now)) := by
  cases op with
  | create uid slotId m now =>
    cases hc : create_reservation st uid slotId m now with
    | error e => left; simp [applyOp, hc]
    | ok p =>
      cases uid with
      | none => simp [create_reservation] at hc
      | some u =>
        obtain ⟨r, st2⟩ := p
        obtain ⟨h1, h2, h3, hr, hst⟩ := create_reservation_ok_iff.mp hc
        right; left
        refine ⟨u, slotId, m, now, rfl, h2, ?_⟩
        simp only [applyOp, hc]
        rw [hst]
  | cancel uid a resId now =>
    cases uid with
    | none => left; simp [applyOp, cancel_reservation]
    | some u =>
      cases hf : st.reservations.find? (fun q => q.id == resId) with
      | none => left; simp [applyOp, cancel_eq_of_none hf]
      | some v =>
        by_cases hperm : (v.user_id != u && !a) = true
        · left; simp [applyOp, cancel_eq_of_forbidden hf hperm]
        · rw [Bool.not_eq_true] at hperm
          by_cases hopen : openStatus v.rstatus = true
          · right; right; left
            refine ⟨resId, now, ?_⟩
            simp only [applyOp, cancel_eq_of_open hf hperm hopen]
            split <;> rfl
          · rw [Bool.not_eq_true] at hopen
            left
            simp [applyOp, cancel_eq_of_terminal hf hperm hopen]
  | expire now =>
    right; right; right
    refine ⟨now, ?_⟩
    simp only [applyOp, expire_reservations_eq]
  | ingestEvent devId ev occ now =>
    left
    exact ingest_reservations st devId ev occ now

/-- Every operation preserves the per-slot uniqueness bound. -/
lemma slotInv_applyOp {st : DBState} (op : Op) (h : SlotInv st) :
    SlotInv (applyOp st op) := by
  rcases applyOp_reservations_cases st op with
    hres | ⟨u, slotId, m, now, hop, hguard, hres⟩ | ⟨resId, now, hres⟩ |
    ⟨now, hres⟩
  · intro sid; rw [hres]; exact h sid
  · intro sid
    rw [hres, openCountSlot_append_single]
    by_cases hs : (slotId == sid) = true
    · have hsid : slotId = sid := eq_of_beq hs
      subst hsid
      rw [openCountSlot_zero _ _ hguard]
      simp [inserted_reservation, openStatus]
    · rw [if_neg (by simp [inserted_reservation, hs])]
      simpa using h sid
  · intro sid
    rw [hres]
    refine Nat.le_trans (openCountSlot_map_le _ _ _ ?_) (h sid)
    intro r hr hp
    by_cases hid : (r.id == resId) = true
    · rw [cancel_update, if_pos hid] at hp
      simp [openStatus] at hp
    · rwa [cancel_update, if_neg hid] at hp
  · intro sid
    rw [hres]
    refine Nat.le_trans (openCountSlot_map_le _ _ _ ?_) (h sid)
    intro r hr hp
    by_cases hm : expireMatch now r = true
    · rw [expire_update, if_pos hm] at hp
      simp [expireRow, openStatus] at hp
    · rwa [expire_update, if_neg hm] at hp

/-- No reservation row ever carries the `pending` status. -/
def NoPending (st : DBState) : Prop :=
  ∀ r ∈ st.reservations, r.rstatus ≠ .pending

lemma noPending_applyOp {st : DBState} (op : Op) (h : NoPending st) :
    NoPending (applyOp st op) := by
  rcases applyOp_reservations_cases st op with
    hres | ⟨u, slotId, m, now, hop, hguard, hres⟩ | ⟨resId, now, hres⟩ |
    ⟨now, hres⟩
  · intro r hr; rw [hres] at hr; exact h r hr
  · intro r hr
    rw [hres] at hr
    rcases List.mem_append.mp hr with hmem | hmem
    · exact h r hmem
    · rcases List.mem_singleton.mp hmem with rfl
      simp [inserted_reservation]
  · intro r hr
    rw [hres] at hr
    refine forall_mem_map_of h (fun a ha => ?_) r hr
    unfold cancel_update
    split
    · simp
    · exact ha
  · intro r hr
    rw [hres] at hr
    refine forall_mem_map_of h (fun a ha => ?_) r hr
    unfold expire_update
    split
    · simp [expireRow]
    · exact ha

/-- Property `expires_at > reserved_at` for every reservation row. -/
def ExpiresAfterReserved (st : DBState) : Prop :=
  ∀ r ∈ st.reservations, r.reserved_at < r.expires_at

lemma expiresAfterReserved_applyOp {st : DBState} (op : Op)
    (hpos : durPos op = true) (h : ExpiresAfterReserved st) :
    ExpiresAfterReserved (applyOp st op) := by
  rcases applyOp_reservations_cases st op with
    hres | ⟨u, slotId, m, now, hop, hguard, hres⟩ | ⟨resId, now, hres⟩ |
    ⟨now, hres⟩
  · intro r hr; rw [hres] at hr; exact h r hr
  · intro r hr
    rw [hres] at hr
    rcases List.mem_append.mp hr with hmem | hmem
    · exact h r hmem
    · rcases List.mem_singleton.mp hmem with rfl
      have hm : (0 : Int) < m := by
        rw [hop] at hpos
        exact of_decide_eq_true hpos
      simp only [inserted_reservation]
      omega
  · intro r hr
    rw [hres] at hr
    refine forall_mem_map_of h (fun a ha => ?_) r hr
    unfold cancel_update
    split
    · simpa using ha
    · exact ha
  · intro r hr
    rw [hres] at hr
    refine forall_mem_map_of h (fun a ha => ?_) r hr
    unfold expire_update
    split
    · simpa [expireRow] using ha
    · exact ha

/-- Preservation of a state predicate along a run. -/
lemma run_preserve {P : DBState → Prop}
    (hstep : ∀ st op, P st → P (applyOp st op)) :
    ∀ (ops : List Op) (st : DBState), P st → P (run st ops) := by
  intro ops
  induction ops with
  | nil => intro st h; exact h
  | cons op t ih =>
    intro st h
    exact ih (applyOp st op) (hstep st op h)

/-- Preservation along a run whose operations all satisfy `durPos`. -/
lemma run_preserve_pos {P : DBState → Prop}
    (hstep : ∀ st op, durPos op = true → P st → P (applyOp st op)) :
    ∀ (ops : List Op) (st : DBState), (∀ op ∈ ops, durPos op = true) →
      P st → P (run st ops) := by
  intro ops
  induction ops with
  | nil => intro st _ h; exact h
  | cons op t ih =>
    intro st hall h
    exact ih (applyOp st op)
      (fun o ho => hall o (List.mem_cons_of_mem _ ho))
      (hstep st op (hall op (List.mem_cons_self _ _)) h)

/-- Lemma `find_map_update` specialised to slot rows keyed by `id`. -/
lemma slot_find_update (l : List Slot) (sid : Nat) (g : Slot → Slot)
    (hg : ∀ s, (g s).id = s.id) :
    (l.map (fun s => if s.id == sid then g s else s)).find?
        (fun s => s.id == sid)
      = (l.find? (fun s => s.id == sid)).map g :=
  find_map_update l (fun s => s.id) sid g hg

/-! ### Concrete fixtures for witnesses -/

/-- Slot "A-01" of the seed data: available, linked to device 7. -/
def slotA : Slot :=
  { id := 0, device_id := some 7, sstatus := .available, last_status_at := none }

/-- Device "ESP32-01" of the seed data. -/
def devW : Device := { id := 7, dstatus := .offline, last_seen := none }

/-- A freshly provisioned database: one slot, one device, no reservations. -/
def st0 : DBState := initState [slotA] [devW]

/-- An active reservation held by user 1 on slot 3. -/
def resW4 : Reservation :=
  { id := 0, slot_id := 3, user_id := 1, rstatus := .active, reserved_at := 0,
    expires_at := 15, cancelled_at := none, end_at := none, created_at := 0 }

/-- A state in which user 1 already holds an open reservation. -/
def stW4 : DBState :=
  { slots := [], reservations := [resW4], devices := [], events := []
    nextId := 1 }

/-! ### The claims -/

/-- C1: in every reachable system state, at most one reservation with status
in `{pending, active}` references any given slot, and each of the four
operations (create, cancel, expire, telemetry ingestion) preserves this
bound on any state already satisfying it. -/
theorem C1_at_most_one_open_reservation_per_slot :
    (∀ (slots : List Slot) (devices : List Device) (ops : List Op),
        SlotInv (run (initState slots devices) ops)) ∧
    (∀ (st : DBState) (op : Op), SlotInv st → SlotInv (applyOp st op)) := by
  constructor
  · intro slots devices ops
    refine run_preserve (fun st op h => slotInv_applyOp op h) ops _ ?_
    intro sid
    simp [initState, openCountSlot]
  · intro st op h
    exact slotInv_applyOp op h

theorem C1_witness :
    SlotInv (applyOp (initState [] []) (Op.expire 0)) :=
  C1_at_most_one_open_reservation_per_slot.2 (initState [] []) (Op.expire 0)
    (fun sid => by simp [initState, openCountSlot])

/-- C2: `expire_reservations` at time `now` returns exactly the rows whose
status is in `{pending, active}` with `expires_at ≤ now`, each transitioned
to `expired` with `end_at = now`; the table is rewritten by exactly that
per-row update (all other rows, and all other state, unchanged); and an
immediate second call returns zero newly-expired rows. -/
theorem C2_expire_overdue_exact_and_idempotent (st : DBState) (now : Int) :
    (expire_reservations st now).1
        = (st.reservations.filter (expireMatch now)).map (expireRow now) ∧
    (expire_reservations st now).2
        = { st with reservations := st.reservations.map (expire_update now) } ∧
    (expire_reservations (expire_reservations st now).2 now).1 = [] := by
  refine ⟨?_, ?_, ?_⟩
  · rw [expire_reservations_eq]
  · rw [expire_reservations_eq]
  · simp [expire_reservations_eq, expire_second_pass_nil]

/-- C4: a caller who already holds an open reservation gets
`userAlreadyHasActiveReservation` from `create_reservation`, whatever slot
is requested, and the state is untouched. -/
theorem C4_user_conflict_checked_first (st : DBState) (v_user_id slotId : Nat)
    (m now : Int)
    (h : user_has_active_reservation st.reservations v_user_id = true) :
    create_reservation st (some v_user_id) slotId m now
        = .error .userAlreadyHasActiveReservation ∧
    applyOp st (.create (some v_user_id) slotId m now) = st := by
  have hc : create_reservation st (some v_user_id) slotId m now
      = .error .userAlreadyHasActiveReservation := by
    simp [create_reservation, h]
  exact ⟨hc, by simp [applyOp, hc]⟩

theorem C4_witness :
    user_has_active_reservation stW4.reservations 1 = true ∧
    (create_reservation stW4 (some 1) 5 15 100
        = .error .userAlreadyHasActiveReservation ∧
     applyOp stW4 (.create (some 1) 5 15 100) = stW4) :=
  ⟨by decide, C4_user_conflict_checked_first stW4 1 5 15 100 (by decide)⟩

/-- C10 (implicit): the `pending` status is unreachable — no reachable
reservation row carries it, so the open-status test over
`{pending, active}` coincides with a test for `active`; `create_reservation`
only ever inserts `active` rows, and the table default is `active`. -/
theorem C10_pending_unreachable :
    (∀ (slots : List Slot) (devices : List Device) (ops : List Op),
        ∀ r ∈ (run (initState slots devices) ops).reservations,
          r.rstatus ≠ .pending ∧ openStatus r.rstatus = (r.rstatus == .active)) ∧
    (∀ (st : DBState) (uid : Option Nat) (slotId : Nat) (m now : Int)
        (r : Reservation) (st' : DBState),
        create_reservation st uid slotId m now = .ok (r, st') →
          r.rstatus = .active) ∧
    reservation_status_default = .active := by
  refine ⟨?_, ?_, rfl⟩
  · intro slots devices ops r hr
    have hnp : NoPending (run (initState slots devices) ops) := by
      refine run_preserve (fun st op h => noPending_applyOp op h) ops _ ?_
      intro q hq
      simp [initState] at hq
    have h1 := hnp r hr
    refine ⟨h1, ?_⟩
    cases hstat : r.rstatus with
    | pending => exact absurd hstat h1
    | active => rfl
    | cancelled => rfl
    | expired => rfl
  · intro st uid slotId m now r st' h
    cases uid with
    | none => simp [create_reservation] at h
    | some u =>
      obtain ⟨-, -, -, hr, -⟩ := create_reservation_ok_iff.mp h
      rw [hr]
      rfl

theorem C10_witness :
    (inserted_reservation st0 1 0 15 100)
        ∈ (run (initState [slotA] [devW]) [Op.create (some 1) 0 15 100]).reservations ∧
    ((inserted_reservation st0 1 0 15 100).rstatus ≠ .pending ∧
      openStatus (inserted_reservation st0 1 0 15 100).rstatus
        = ((inserted_reservation st0 1 0 15 100).rstatus == .active)) :=
  ⟨by decide,
   C10_pending_unreachable.1 [slotA] [devW] [Op.create (some 1) 0 15 100]
     (inserted_reservation st0 1 0 15 100) (by decide)⟩

/-- The reservation created on the fresh database by user 1 on slot 0 at
time 100 for 15 minutes. -/
def rW5 : Reservation :=
  { id := 0, slot_id := 0, user_id := 1, rstatus := .active, reserved_at := 100,
    expires_at := 115, cancelled_at := none, end_at := none, created_at := 100 }

/-- The database after that creation. -/
def stW5 : DBState :=
  { slots := [{ id := 0, device_id := some 7, sstatus := .reserved,
                last_status_at := some 100 }]
    reservations := [rW5], devices := [devW], events := [], nextId := 1 }

/-- C5: a successful `create_reservation` inserts a row with
`status = active`, `reserved_at = now`, `expires_at = now + p_minutes`
for the caller and slot, appends exactly that row, sets the slot's status
to `reserved`, and returns the inserted row; omitting `p_minutes` uses the
declared default of 15. -/
theorem C5_create_success (st : DBState) (v_user_id slotId : Nat) (m now : Int)
    (r : Reservation) (st' : DBState)
    (h : create_reservation st (some v_user_id) slotId m now = .ok (r, st')) :
    r.rstatus = .active ∧
    r.reserved_at = now ∧
    r.expires_at = now + m ∧
    r.user_id = v_user_id ∧
    r.slot_id = slotId ∧
    st'.reservations = st.reservations ++ [r] ∧
    slotStatus st' slotId = some .reserved ∧
    create_reservation_default st (some v_user_id) slotId now
      = create_reservation st (some v_user_id) slotId 15 now := by
  obtain ⟨h1, h2, h3, hr, hst⟩ := create_reservation_ok_iff.mp h
  subst hr
  subst hst
  refine ⟨rfl, rfl, rfl, rfl, rfl, rfl, ?_, rfl⟩
  unfold slotStatus
  rw [show ({ st with
      reservations :=
        st.reservations ++ [inserted_reservation st v_user_id slotId m now]
      slots := st.slots.map (fun s =>
        if s.id == slotId then
          { s with sstatus := .reserved, last_status_at := some now }
        else s)
      nextId := st.nextId + 1 } : DBState).slots
    = st.slots.map (fun s =>
        if s.id == slotId then
          { s with sstatus := .reserved, last_status_at := some now }
        else s) from rfl]
  rw [slot_find_update st.slots slotId
    (fun s => { s with sstatus := .reserved, last_status_at := some now })
    (fun s => rfl)]
  have hex : ∃ x ∈ st.slots, (x.id == slotId) = true := by
    simpa using h3
  obtain ⟨t, ht⟩ := Option.isSome_iff_exists.mp (List.find?_isSome.mpr hex)
  rw [ht]
  rfl

theorem C5_witness :
    create_reservation st0 (some 1) 0 15 100 = .ok (rW5, stW5) ∧
    (rW5.rstatus = .active ∧
     rW5.reserved_at = 100 ∧
     rW5.expires_at = 100 + 15 ∧
     rW5.user_id = 1 ∧
     rW5.slot_id = 0 ∧
     stW5.reservations = st0.reservations ++ [rW5] ∧
     slotStatus stW5 0 = some .reserved ∧
     create_reservation_default st0 (some 1) 0 100
       = create_reservation st0 (some 1) 0 15 100) :=
  ⟨by decide, C5_create_success st0 1 0 15 100 rW5 stW5 (by decide)⟩

/-- An already-cancelled reservation of user 1. -/
def resW7 : Reservation :=
  { id := 2, slot_id := 0, user_id := 1, rstatus := .cancelled, reserved_at := 0,
    expires_at := 15, cancelled_at := some 5, end_at := none, created_at := 0 }

/-- A state holding only that terminal reservation. -/
def stW7 : DBState :=
  { slots := [slotA], reservations := [resW7], devices := [], events := []
    nextId := 3 }

/-- C7: cancelling a reservation whose status is not in `{pending, active}`
is a no-op for the owner or an admin: the current row is returned, the
state is untouched, and no error is raised. -/
theorem C7_cancel_terminal_noop (st : DBState) (v_user_id : Nat)
    (isAdmin : Bool) (resId : Nat) (now : Int) (v : Reservation)
    (hf : st.reservations.find? (fun q => q.id == resId) = some v)
    (hperm : v.user_id = v_user_id ∨ isAdmin = true)
    (hterm : openStatus v.rstatus = false) :
    cancel_reservation st (some v_user_id) isAdmin resId now = .ok (v, st) := by
  have hb : (v.user_id != v_user_id && !isAdmin) = false := by
    rcases hperm with h | h <;> simp [h]
  exact cancel_eq_of_terminal hf hb hterm

theorem C7_witness :
    stW7.reservations.find? (fun q => q.id == 2) = some resW7 ∧
    resW7.user_id = 1 ∧
    openStatus resW7.rstatus = false ∧
    cancel_reservation stW7 (some 1) false 2 50 = .ok (resW7, stW7) :=
  ⟨by decide, by decide, by decide,
   C7_cancel_terminal_noop stW7 1 false 2 50 resW7 (by decide) (Or.inl rfl)
     (by decide)⟩

/-- C8: `cancel_reservation` fails with `reservationNotFound` when no row
has the requested id, and fails with `notAllowedToCancel` exactly when the
caller is neither the owner nor an admin (so an admin may cancel any
reservation). -/
theorem C8_cancel_error_conditions (st : DBState) (v_user_id : Nat)
    (isAdmin : Bool) (resId : Nat) (now : Int) :
    (st.reservations.find? (fun q => q.id == resId) = none →
        cancel_reservation st (some v_user_id) isAdmin resId now
          = .error .reservationNotFound) ∧
    (∀ v, st.reservations.find? (fun q => q.id == resId) = some v →
        (cancel_reservation st (some v_user_id) isAdmin resId now
            = .error .notAllowedToCancel
          ↔ (v.user_id ≠ v_user_id ∧ isAdmin = false))) := by
  constructor
  · intro hf
    exact cancel_eq_of_none hf
  · intro v hf
    by_cases hg : (v.user_id != v_user_id && !isAdmin) = true
    · rw [Bool.and_eq_true] at hg
      constructor
      · intro _
        exact ⟨bne_iff_ne.mp hg.1, (Bool.not_eq_true' _) ▸ hg.2⟩
      · intro _
        exact cancel_eq_of_forbidden hf (by rw [Bool.and_eq_true]; exact hg)
    · rw [Bool.not_eq_true] at hg
      constructor
      · intro herr
        exfalso
        by_cases hopen : openStatus v.rstatus = true
        · rw [cancel_eq_of_open hf hg hopen] at herr
          simp at herr
        · rw [Bool.not_eq_true] at hopen
          rw [cancel_eq_of_terminal hf hg hopen] at herr
          simp at herr
      · rintro ⟨hne, hadm⟩
        exfalso
        have hgt : (v.user_id != v_user_id && !isAdmin) = true := by
          rw [Bool.and_eq_true]
          exact ⟨bne_iff_ne.mpr hne, by rw [hadm]; rfl⟩
        exact Bool.noConfusion (hgt.symm.trans hg)

theorem C8_witness :
    cancel_reservation stW7 (some 9) false 99 50
        = .error .reservationNotFound ∧
    cancel_reservation stW7 (some 9) false 2 50
        = .error .notAllowedToCancel ∧
    ¬(cancel_reservation stW7 (some 9) true 2 50
        = .error .notAllowedToCancel) :=
  ⟨(C8_cancel_error_conditions stW7 9 false 99 50).1 (by decide),
   ((C8_cancel_error_conditions stW7 9 false 2 50).2 resW7 (by decide)).mpr
     ⟨by decide, rfl⟩,
   fun h =>
     Bool.noConfusion
       (((C8_cancel_error_conditions stW7 9 true 2 50).2 resW7 (by decide)).mp
         h).2⟩

/-- An active reservation of user 1 on slot 0, used for cancellation. -/
def resW6 : Reservation :=
  { id := 4, slot_id := 0, user_id := 1, rstatus := .active, reserved_at := 100,
    expires_at := 115, cancelled_at := none, end_at := none, created_at := 100 }

/-- A state holding that active reservation, slot 0 reserved. -/
def stW6 : DBState :=
  { slots := [{ id := 0, device_id := some 7, sstatus := .reserved,
                last_status_at := some 100 }]
    reservations := [resW6], devices := [devW], events := [], nextId := 5 }

/-- Row `resW6` after cancellation at time 120. -/
def resW6c : Reservation :=
  { id := 4, slot_id := 0, user_id := 1, rstatus := .cancelled,
    reserved_at := 100, expires_at := 115, cancelled_at := some 120,
    end_at := none, created_at := 100 }

/-- State `stW6` after the cancellation: the slot reverts to available. -/
def stW6c : DBState :=
  { slots := [{ id := 0, device_id := some 7, sstatus := .available,
                last_status_at := some 120 }]
    reservations := [resW6c], devices := [devW], events := [], nextId := 5 }

/-- C6: cancelling an open reservation sets `status = cancelled` and
`cancelled_at = now` on that row (and only that row), then sets the slot's
status to `available` exactly when no other open reservation references the
slot, leaving the slots table untouched otherwise. -/
theorem C6_cancel_open_updates_row_and_slot (st : DBState) (v_user_id : Nat)
    (isAdmin : Bool) (resId : Nat) (now : Int) (v res' : Reservation)
    (st' : DBState)
    (hf : st.reservations.find? (fun q => q.id == resId) = some v)
    (hopen : openStatus v.rstatus = true)
    (hslot : st.slots.any (fun s => s.id == v.slot_id) = true)
    (h : cancel_reservation st (some v_user_id) isAdmin resId now
      = .ok (res', st')) :
    res'.rstatus = .cancelled ∧
    res'.cancelled_at = some now ∧
    st'.reservations = st.reservations.map (cancel_update resId now) ∧
    (otherOpenReservation st.reservations resId v.slot_id = false →
        slotStatus st' v.slot_id = some .available) ∧
    (otherOpenReservation st.reservations resId v.slot_id = true →
        st'.slots = st.slots) := by
  by_cases hperm : (v.user_id != v_user_id && !isAdmin) = true
  · rw [cancel_eq_of_forbidden hf hperm] at h
    simp at h
  · rw [Bool.not_eq_true] at hperm
    rw [cancel_eq_of_open hf hperm hopen, slot_active_after_cancel] at h
    by_cases hoth : otherOpenReservation st.reservations resId v.slot_id = true
    · rw [if_pos hoth] at h
      simp only [Except.ok.injEq, Prod.mk.injEq] at h
      obtain ⟨hres, hst⟩ := h
      refine ⟨by rw [← hres], by rw [← hres], by rw [← hst], ?_, ?_⟩
      · intro h0
        rw [h0] at hoth
        simp at hoth
      · intro _
        rw [← hst]
    · rw [Bool.not_eq_true] at hoth
      rw [if_neg (by simp [hoth])] at h
      simp only [Except.ok.injEq, Prod.mk.injEq] at h
      obtain ⟨hres, hst⟩ := h
      refine ⟨by rw [← hres], by rw [← hres], by rw [← hst], ?_, ?_⟩
      · intro _
        rw [← hst]
        unfold slotStatus
        rw [show ({ st with
            reservations := st.reservations.map (cancel_update resId now)
            slots := st.slots.map (fun s =>
              if s.id == v.slot_id then
                { s with sstatus := .available, last_status_at := some now }
              else s) } : DBState).slots
          = st.slots.map (fun s =>
              if s.id == v.slot_id then
                { s with sstatus := .available, last_status_at := some now }
              else s) from rfl]
        rw [slot_find_update st.slots v.slot_id
          (fun s => { s with sstatus := .available, last_status_at := some now })
          (fun s => rfl)]
        have hex : ∃ x ∈ st.slots, (x.id == v.slot_id) = true := by
          simpa using hslot
        obtain ⟨t, ht⟩ := Option.isSome_iff_exists.mp (List.find?_isSome.mpr hex)
        rw [ht]
        rfl
      · intro h1
        rw [h1] at hoth
        simp at hoth

theorem C6_witness :
    stW6.reservations.find? (fun q => q.id == 4) = some resW6 ∧
    openStatus resW6.rstatus = true ∧
    stW6.slots.any (fun s => s.id == resW6.slot_id) = true ∧
    cancel_reservation stW6 (some 1) false 4 120 = .ok (resW6c, stW6c) ∧
    (resW6c.rstatus = .cancelled ∧
     resW6c.cancelled_at = some 120 ∧
     stW6c.reservations = stW6.reservations.map (cancel_update 4 120) ∧
     (otherOpenReservation stW6.reservations 4 resW6.slot_id = false →
        slotStatus stW6c resW6.slot_id = some .available) ∧
     (otherOpenReservation stW6.reservations 4 resW6.slot_id = true →
        stW6c.slots = stW6.slots)) :=
  ⟨by decide, by decide, by decide, by decide,
   C6_cancel_open_updates_row_and_slot stW6 1 false 4 120 resW6 resW6c stW6c
     (by decide) (by decide) (by decide) (by decide)⟩

/-- C3: for an occupancy event from a device linked to a slot,
`is_occupied = true` makes the slot `occupied` and `is_occupied = false`
makes it `reserved` exactly when an open reservation still exists for it
(`available` otherwise); non-occupancy events, and events from devices with
no linked slot, leave the slots table unchanged. -/
theorem C3_occupancy_reconciliation (st : DBState) (devId : Nat) (now : Int) :
    (∀ ev occ, (ev == EventType.occupancy) = false →
        (ingest st devId ev occ now).slots = st.slots) ∧
    (st.slots.find? (fun s => s.device_id == some devId) = none →
        ∀ occ, (ingest st devId .occupancy occ now).slots = st.slots) ∧
    (∀ s, st.slots.find? (fun s => s.device_id == some devId) = some s →
        slotStatus (ingest st devId .occupancy (some true) now) s.id
            = some .occupied ∧
        slotStatus (ingest st devId .occupancy (some false) now) s.id
            = some (if slot_has_active_reservation st.reservations s.id
                then .reserved else .available)) := by
  refine ⟨?_, ?_, ?_⟩
  · intro ev occ hev
    simp only [ingest, on_device_event]
    split
    · rfl
    · simp [hev]
  · intro hf occ
    simp only [ingest, on_device_event, hf]
  · intro s hf
    have hmem : s ∈ st.slots := List.mem_of_find?_eq_some hf
    have hex : ∃ x ∈ st.slots, (x.id == s.id) = true := ⟨s, hmem, by simp⟩
    obtain ⟨t, ht⟩ :=
      Option.isSome_iff_exists.mp (List.find?_isSome.mpr hex)
    constructor
    · simp only [ingest, on_device_event, hf]
      unfold slotStatus
      rw [show (EventType.occupancy == EventType.occupancy) = true from rfl]
      simp only [if_true]
      rw [slot_find_update st.slots s.id
        (fun t => { t with sstatus := .occupied, last_status_at := some now })
        (fun t => rfl), ht]
      rfl
    · simp only [ingest, on_device_event, hf]
      unfold slotStatus
      rw [show (EventType.occupancy == EventType.occupancy) = true from rfl]
      simp only [if_true]
      rw [slot_find_update st.slots s.id
        (fun t => { t with
          sstatus := if slot_has_active_reservation st.reservations s.id
            then .reserved else .available
          last_status_at := some now })
        (fun t => rfl), ht]
      rfl

theorem C3_witness :
    st0.slots.find? (fun s => s.device_id == some 7) = some slotA ∧
    slotStatus (ingest st0 7 .occupancy (some true) 100) slotA.id
        = some .occupied ∧
    slotStatus (ingest st0 7 .occupancy (some false) 100) slotA.id
        = some (if slot_has_active_reservation st0.reservations slotA.id
            then .reserved else .available) ∧
    ((EventType.heartbeat == EventType.occupancy) = false ∧
      (ingest st0 7 .heartbeat none 100).slots = st0.slots) ∧
    (st0.slots.find? (fun s => s.device_id == some 99) = none ∧
      (ingest st0 99 .occupancy (some true) 100).slots = st0.slots) :=
  ⟨by decide,
   ((C3_occupancy_reconciliation st0 7 100).2.2 slotA (by decide)).1,
   ((C3_occupancy_reconciliation st0 7 100).2.2 slotA (by decide)).2,
   ⟨by decide,
    (C3_occupancy_reconciliation st0 7 100).1 .heartbeat none (by decide)⟩,
   ⟨by decide,
    (C3_occupancy_reconciliation st0 99 100).2.1 (by decide) (some true)⟩⟩

/-- The reservation produced by `create_reservation` with `p_minutes = 0`:
`expires_at` equals `reserved_at`. -/
def rC9 : Reservation :=
  { id := 0, slot_id := 0, user_id := 1, rstatus := .active, reserved_at := 100,
    expires_at := 100, cancelled_at := none, end_at := none, created_at := 100 }

/-- The (reachable) state holding that degenerate reservation. -/
def stC9 : DBState :=
  { slots := [{ id := 0, device_id := some 7, sstatus := .reserved,
                last_status_at := some 100 }]
    reservations := [rC9], devices := [devW], events := [], nextId := 1 }

/-- C9 counterexample: `create_reservation` accepts the non-positive
duration `p_minutes = 0` without any validation error and reaches a state
whose reservation has `expires_at = reserved_at`, violating
`expires_at > reserved_at`. -/
theorem C9_counterexample_zero_duration_accepted :
    create_reservation st0 (some 1) 0 0 100 = .ok (rC9, stC9) ∧
    rC9.expires_at = rC9.reserved_at ∧
    run (initState [slotA] [devW]) [Op.create (some 1) 0 0 100] = stC9 := by
  decide

/-- C9 amended: `create_reservation` performs no validation of `p_minutes`
and sets `expires_at = reserved_at + p_minutes`; consequently
`expires_at > reserved_at` holds for every reservation in every state
reached using only positive durations (such as the default 15). -/
theorem C9_expires_after_reserved_for_positive_durations
    (slots : List Slot) (devices : List Device) (ops : List Op)
    (hpos : ops.all durPos = true) :
    ∀ r ∈ (run (initState slots devices) ops).reservations,
      r.reserved_at < r.expires_at := by
  rw [List.all_eq_true] at hpos
  refine run_preserve_pos
    (fun st op hp h => expiresAfterReserved_applyOp op hp h) ops _ hpos ?_
  intro r hr
  simp [initState] at hr

theorem C9_amended_witness : rW5.reserved_at < rW5.expires_at :=
  C9_expires_after_reserved_for_positive_durations [slotA] [devW]
    [Op.create (some 1) 0 15 100] (by decide) rW5 (by decide)

end ParkingApp
